import Mathlib

/-!
Verification of the task lifecycle and process-supervision subsystem of the
Jmeter-Toolkit repository, as a shallow embedding of the relevant Python
source into Lean.

Embedded source files:
  - `core/cache.py`   : `Cache` / `DictCache`
  - `core/task.py`    : `TaskManger` (`stop_task_by_file_name`, `stop_all`,
                        `execute_jmx`, `list_tasks`)
  - `core/jmeter.py`  : `JMeterManager.execute_jmx_async`, `cancel_task`
  - `utils/tasks.py`  : Celery workers `execute_jmeter_task` and
                        `generate_html_report_task`
  - `database/models.py` : `TaskStatus`, `FileType`, `Task`, `FileRecord`

Conventions of the embedding:
  - Python dicts with string keys become insertion-ordered association lists
    with unique keys; `dict.get` is `find?`.
  - OS interaction (killpg, Popen, the filesystem, Celery) is modelled by
    explicit oracles: a `killpgOk : Int -> Bool` argument says whether
    `os.killpg` on a pid's group raises, a `WorkerEnv` record carries the
    outcome of the one external process a worker run launches, and the set of
    paths existing on disk is a list of strings.
  - Fallible Python code (raising) returns `Except`; functions also return the
    updated state, and where a claim needs it, a trace of the side effects
    performed (signals sent, Celery jobs enqueued).
  - Formatted log/exception message strings keep the words of the source but
    elide Python repr quoting and tracebacks.
-/

/-- `database/models.py` `TaskStatus`: the five task states. -/
inductive TaskStatus
  | pending
  | running
  | completed
  | failed
  | cancelled
deriving DecidableEq

/-- `database/models.py` `FileType`. -/
inductive FileType
  | jmx
  | jtl
deriving DecidableEq

/-- Python exceptions that escape an embedded function (rather than being
converted into a returned value by an `except` block). -/
inductive PyError
  | attributeError
  | valueError
deriving DecidableEq

/-- `core/jmeter.py` `RunCmdResp`: the stop-outcome record built by
`TaskManger.stop_task_by_file_name`. -/
structure RunCmdResp where
  pid : Int
  stdout : String
  stderr : String
  returncode : Int
deriving DecidableEq

/-- `core/jmeter.py` `ExecuteJmxResponse`: the annotated return type of
`TaskManger.execute_jmx`.  Never constructed by the current code (see
`TaskManger.execute_jmx` below). -/
structure ExecuteJmxResponse where
  output_file_path : String
  cost_time : String
  status : String
  output_file : String
  err : String
  run_cmd_resp : Option RunCmdResp
deriving DecidableEq

/-- `core/cache.py` `DictCache`: `self._cache` is a Python dict from file
names to pids, modelled as an insertion-ordered association list with unique
keys (`dict` semantics: overwriting keeps the position, a fresh key is
appended). -/
structure DictCache where
  cache : List (String × Int)
deriving DecidableEq

/-- `DictCache.get`: `self._cache.get(key)`; `none` models Python `None`. -/
def DictCache.get (c : DictCache) (key : String) : Option Int :=
  (c.cache.find? (fun kv => kv.1 == key)).map (fun kv => kv.2)

/-- `DictCache.set`: `self._cache[key] = value` (the `ttl` parameter of the
source is ignored by the implementation and omitted here). -/
def DictCache.set (c : DictCache) (key : String) (value : Int) : DictCache :=
  if (c.cache.find? (fun kv => kv.1 == key)).isSome then
    ⟨c.cache.map (fun kv => if kv.1 == key then (key, value) else kv)⟩
  else
    ⟨c.cache ++ [(key, value)]⟩

/-- `DictCache.get_all_pid`: `list(self._cache.values())`. -/
def DictCache.get_all_pid (c : DictCache) : List Int :=
  c.cache.map (fun kv => kv.2)

/-- `DictCache.get_all_tasks`: `return self._cache`.  The source returns the
dict object itself, not a copy, so the caller receives an alias of the live
cache; `DictCache.view_returned_dict` below expresses what reading that alias
at a later cache state observes. -/
def DictCache.get_all_tasks (c : DictCache) : DictCache :=
  c

/-- Reading, at cache state `s`, the dict object that `get_all_tasks`
returned earlier: since `get_all_tasks` returns `self._cache` itself, the
contents observed through the returned object at any moment are the cache
contents at that moment. -/
def DictCache.view_returned_dict (s : DictCache) : List (String × Int) :=
  s.cache

/-- Snapshot semantics in the words of the spec (for comparison with the
source's alias semantics): the mapping returned by `getAll` is frozen at
call time and unaffected by later mutation. -/
def DictCache.getAll_snapshot_spec (c : DictCache) : List (String × Int) :=
  c.cache

/-- `DictCache.remove`: delete the key if present, reporting whether an entry
existed. -/
def DictCache.remove (c : DictCache) (key : String) : DictCache × Bool :=
  if (c.cache.find? (fun kv => kv.1 == key)).isSome then
    (⟨c.cache.filter (fun kv => kv.1 != key)⟩, true)
  else
    (c, false)

/-- Python truthiness of `pid` in `core/task.py` line 50 (`if pid:`): the
cached value is falsy when the key is absent (`None`) and when the stored
pid is `0`. -/
def pyTruthy : Option Int → Bool
  | some p => p != 0
  | none => false

/-- `core/task.py` `TaskManger.stop_task_by_file_name`.  `killpgOk p` models
whether `os.killpg(os.getpgid(p), SIGTERM)` (via `_stop_task_by_id`) runs
without raising.  Result: the `RunCmdResp`, the cache after the call, and the
list of pids for which a kill was attempted.  The `except` block converts any
exception into a returned failure response, so the embedded function is
total: the method never raises to its caller.  Note the order inside the
`try`: the signal is sent first and `cache.remove` runs only after it
succeeds, so on a kill failure the entry is left in the cache. -/
def TaskManger.stop_task_by_file_name (killpgOk : Int → Bool) (c : DictCache)
    (file_name : String) : RunCmdResp × DictCache × List Int :=
  let pid := c.get file_name
  if pyTruthy pid then
    let p := pid.getD 0
    if killpgOk p then
      ({ pid := p, returncode := 0, stdout := "success", stderr := "" },
       (c.remove file_name).1, [p])
    else
      ({ pid := p, returncode := 1, stdout := "",
         stderr := "stop pid=" ++ toString p ++ " fail" }, c, [p])
  else
    ({ pid := 0, returncode := 1, stdout := "",
       stderr := "no found file_name=" ++ file_name ++ " in cache" }, c, [])

/-- `core/task.py` `TaskManger.list_tasks`: returns `cache.get_all_tasks()`. -/
def TaskManger.list_tasks (c : DictCache) : DictCache :=
  c.get_all_tasks

/-- `core/task.py` `TaskManger.stop_all`: copies the key list
(`list(self.list_tasks().keys())`) and then stops each key in order,
threading the cache through the successive stops. -/
def TaskManger.stop_all (killpgOk : Int → Bool) (c : DictCache) :
    List RunCmdResp × DictCache :=
  let keys := (TaskManger.list_tasks c).cache.map (fun kv => kv.1)
  keys.foldl
    (fun acc key =>
      let r := TaskManger.stop_task_by_file_name killpgOk acc.2 key
      (acc.1 ++ [r.1], r.2.1))
    ([], c)

/-- `core/task.py` `TaskManger.execute_jmx`: the body evaluates
`self.jmeter_manager.execute_jmx(file_name=..., cache=...)`, but
`JMeterManager` (`core/jmeter.py`) defines no attribute `execute_jmx` (only
`execute_jmx_async` and `execute_jmx_sync_dev`), so the attribute lookup
raises `AttributeError` before anything else happens. -/
def TaskManger.execute_jmx (_file_name : String) :
    Except PyError ExecuteJmxResponse :=
  .error .attributeError

/-- `database/models.py` `Task` (called `TaskRow` here only because `Task` is
a reserved core Lean type): the fields of the task row that the claims
mention.  `process_id` holds the Celery task id string assigned by
`execute_jmx_async` / `execute_jmeter_task` (the source assigns
`celery_task.id`, a string, to this column).  Timestamp and cost fields are
elided: no claim depends on them. -/
structure TaskRow where
  id : String
  name : String
  jmx_file_name : String
  jmx_file_path : String
  jmx_file_hash : String
  status : TaskStatus
  process_id : Option String
  jtl_file_name : Option String
  command : Option String
  stdout : Option String
  stderr : Option String
  return_code : Option Int
deriving DecidableEq

/-- `database/models.py` `FileRecord`: the fields used by
`execute_jmx_async`. -/
structure FileRecord where
  stored_name : String
  file_path : String
  file_type : FileType
  is_deleted : Bool
  original_name : String
  file_hash : String
deriving DecidableEq

/-- A FastAPI `HTTPException(status_code, detail)`. -/
structure HTTPException where
  status_code : Nat
  detail : String
deriving DecidableEq

/-- The dict returned by `JMeterManager.execute_jmx_async` on success. -/
structure ExecAsyncResp where
  task_id : String
  celery_task_id : String
  status : String
  file_name : String
  original_name : String
  message : String
deriving DecidableEq

/-- Application state seen by `execute_jmx_async`: the `file_records` and
`tasks` database tables, the set of paths present on disk, the `DictCache`
held by `TaskManger`, and the list of Celery jobs enqueued so far (each as
task id and jmx path). -/
structure AppState where
  file_records : List FileRecord
  tasks : List TaskRow
  disk : List String
  cache : DictCache
  enqueued : List (String × String)
deriving DecidableEq

/-- `db.query(TaskRow)...first()` by task id. -/
def find_task (tasks : List TaskRow) (tid : String) : Option TaskRow :=
  tasks.find? (fun t => t.id == tid)

/-- Mutating the ORM object for task `tid` and committing: the row with that
id is replaced by `f` applied to it. -/
def update_task (tasks : List TaskRow) (tid : String) (f : TaskRow → TaskRow) :
    List TaskRow :=
  tasks.map (fun t => if t.id == tid then f t else t)

/-- The third filter clause of the `FileRecord` query in
`execute_jmx_async` / `execute_jmx_sync_dev` (`core/jmeter.py` line 94) is
the Python expression `FileRecord.is_deleted is False`.  At class level
`FileRecord.is_deleted` is a SQLAlchemy column object, not the `False`
singleton, so the `is` identity test evaluates to the Python constant
`False`; SQLAlchemy coerces that constant into the SQL literal `false`,
which no row satisfies.  The record's actual `is_deleted` value is therefore
irrelevant and the clause rejects every row. -/
def is_deleted_is_False_clause (_r : FileRecord) : Bool :=
  false

/-- The `FileRecord` query of `execute_jmx_async` (`core/jmeter.py` lines
92-96): first record with the given `stored_name`, file type JMX, and
satisfying the (constantly false) `is_deleted is False` clause. -/
def query_first_jmx (records : List FileRecord) (file_name : String) :
    Option FileRecord :=
  records.find? (fun r =>
    r.stored_name == file_name && r.file_type == FileType.jmx
      && is_deleted_is_False_clause r)

/-- `core/jmeter.py` `JMeterManager.execute_jmx_async`.  `fresh_id` is the
uuid the database assigns to the new task row and `celery_id` the id Celery
assigns to the enqueued job; both are nondeterministic inputs.  Raising an
`HTTPException` is the `Except.error` case, in which the state is returned
unchanged.  The function never references the `TaskManger` cache: the
`cache` component of the state appears in no branch. -/
def JMeterManager.execute_jmx_async (st : AppState)
    (file_name fresh_id celery_id : String) :
    Except HTTPException ExecAsyncResp × AppState :=
  match query_first_jmx st.file_records file_name with
  | none => (.error ⟨404, "JMX file not found"⟩, st)
  | some fr =>
    if st.disk.contains fr.file_path then
      let t : TaskRow :=
        { id := fresh_id
          name := "Execute " ++ fr.original_name
          jmx_file_name := fr.stored_name
          jmx_file_path := fr.file_path
          jmx_file_hash := fr.file_hash
          status := .pending
          process_id := none
          jtl_file_name := none
          command := none
          stdout := none
          stderr := none
          return_code := none }
      let st1 := { st with tasks := st.tasks ++ [t] }
      let st2 := { st1 with enqueued := st1.enqueued ++ [(fresh_id, fr.file_path)] }
      let setCel := fun (u : TaskRow) => { u with process_id := some celery_id }
      let st3 := { st2 with tasks := update_task st2.tasks fresh_id setCel }
      (.ok { task_id := fresh_id
             celery_task_id := celery_id
             status := "pending"
             file_name := fr.stored_name
             original_name := fr.original_name
             message := "JMeter execution task started" }, st3)
    else
      (.error ⟨404, "JMX file not found on disk"⟩, st)

/-- Outcome of the one external process a worker run launches: whether
`process.communicate(timeout=...)` raised `TimeoutExpired`, and otherwise
the exit code and captured streams. -/
structure ProcOutcome where
  timed_out : Bool
  returncode : Int
  stdout : String
  stderr : String
deriving DecidableEq

/-- Environment of one `execute_jmeter_task` worker run: whether the jmx
path exists on disk, whether `subprocess.Popen` itself succeeded (`popen_err`
is the exception text when it did not), and the process outcome. -/
structure WorkerEnv where
  jmx_exists : Bool
  popen_ok : Bool
  popen_err : String
  proc : ProcOutcome
deriving DecidableEq

/-- The dict a Celery worker returns (the fields the claims mention;
task id, output-file and timing entries of the source dicts are elided). -/
structure WorkerResult where
  status : String
  message : String
  error : Option String
deriving DecidableEq

/-- Characters after the last slash of a path (the final path component). -/
def afterLastSlash (l : List Char) : List Char :=
  l.foldl (fun acc c => if c = '/' then [] else acc ++ [c]) []

/-- Drop the last dot-suffix of a file name, if any. -/
def dropExt (l : List Char) : List Char :=
  match (l.reverse).dropWhile (fun c => c != '.') with
  | [] => l
  | _ :: rest => rest.reverse

/-- `Path(p).stem`: the final path component without its last suffix (the
leading-dot special case for hidden files is not modelled; no jmx path here
has one). -/
def pathStem (p : String) : String :=
  String.mk (dropExt (afterLastSlash p.toList))

/-- `utils/tasks.py` `execute_jmeter_task` (the Celery execution worker).
Arguments mirror the source: the task id and jmx path, plus the
nondeterministic inputs `celery_req_id` (`current_task.request.id`) and
`timestamp`.  Result: the worker's return dict (or the Python exception that
escapes it), the task table after the run, and whether the worker issued any
kill/terminate signal to the external process — the source contains no such
call on any path, in particular the `TimeoutExpired` handler only records
the failure, so this component is `false` on every path.
Path by path:
  - task id not in the table: `raise ValueError`, whose handler then
    evaluates `task.status = ...` on `task = None` and so raises
    `AttributeError` out of the worker;
  - the task is unconditionally set to Running (no check of its current
    status) and `process_id` is overwritten, before the jmx path is checked;
  - missing jmx file, or a `Popen` failure, reach the generic handler:
    status Failed, `stderr` = the exception text;
  - timeout: status Failed, `stderr` = "Execution timeout";
  - normal exit: captured streams and exit code are recorded, then status
    Completed when the exit code is 0, Failed otherwise. -/
def execute_jmeter_task (env : WorkerEnv) (tasks : List TaskRow)
    (task_id celery_req_id timestamp jmx_file_path : String) :
    Except PyError WorkerResult × List TaskRow × Bool :=
  match find_task tasks task_id with
  | none => (.error .attributeError, tasks, false)
  | some _ =>
    let tasks1 := update_task tasks task_id (fun t =>
      { t with status := .running, process_id := some celery_req_id })
    if !env.jmx_exists then
      let msg := "JMX file not found: " ++ jmx_file_path
      (.ok { status := "failed",
             message := "JMeter execution failed due to internal error",
             error := some msg },
       update_task tasks1 task_id (fun t =>
         { t with status := .failed, stderr := some msg }),
       false)
    else
      let output_filename := pathStem jmx_file_path ++ "_" ++ timestamp ++ ".jtl"
      let tasks2 := update_task tasks1 task_id (fun t =>
        { t with jtl_file_name := some output_filename })
      if !env.popen_ok then
        (.ok { status := "failed",
               message := "JMeter execution failed due to internal error",
               error := some env.popen_err },
         update_task tasks2 task_id (fun t =>
           { t with status := .failed, stderr := some env.popen_err }),
         false)
      else if env.proc.timed_out then
        (.ok { status := "failed",
               message := "JMeter execution timed out",
               error := some "Execution timeout" },
         update_task tasks2 task_id (fun t =>
           { t with status := .failed, stderr := some "Execution timeout" }),
         false)
      else
        let tasks3 := update_task tasks2 task_id (fun t =>
          { t with stdout := some env.proc.stdout,
                   stderr := some env.proc.stderr,
                   return_code := some env.proc.returncode })
        if env.proc.returncode == 0 then
          (.ok { status := "success",
                 message := "JMeter execution completed successfully",
                 error := none },
           update_task tasks3 task_id (fun t => { t with status := .completed }),
           false)
        else
          (.ok { status := "failed",
                 message := "JMeter execution failed with return code "
                   ++ toString env.proc.returncode,
                 error := some env.proc.stderr },
           update_task tasks3 task_id (fun t => { t with status := .failed }),
           false)

/-- Environment of one `generate_html_report_task` run: whether the jtl path
exists, whether `Popen` succeeded, whether `communicate` timed out (caught by
the generic handler here), and the renderer's exit code and stderr. -/
structure ReportEnv where
  jtl_exists : Bool
  popen_ok : Bool
  popen_err : String
  timed_out : Bool
  returncode : Int
  stderr : String
deriving DecidableEq

/-- `utils/tasks.py` `generate_html_report_task`.  The function opens a
database session but on no path does it query or mutate a `TaskRow` row: every
branch returns a result dict built from the renderer run alone, and the task
table is passed through unchanged. -/
def generate_html_report_task (env : ReportEnv) (tasks : List TaskRow)
    (_task_id jtl_file_path : String) : WorkerResult × List TaskRow :=
  if !env.jtl_exists then
    ({ status := "failed",
       message := "HTML report generation failed due to internal error",
       error := some ("JTL file not found: " ++ jtl_file_path) }, tasks)
  else if !env.popen_ok then
    ({ status := "failed",
       message := "HTML report generation failed due to internal error",
       error := some env.popen_err }, tasks)
  else if env.timed_out then
    ({ status := "failed",
       message := "HTML report generation failed due to internal error",
       error := some "timed out" }, tasks)
  else if env.returncode == 0 then
    ({ status := "success",
       message := "HTML report generated successfully",
       error := none }, tasks)
  else
    ({ status := "failed",
       message := "HTML report generation failed with return code "
         ++ toString env.returncode,
       error := some env.stderr }, tasks)

/-- The dict returned by `JMeterManager.cancel_task` on success. -/
structure CancelResp where
  task_id : String
  status : String
  message : String
deriving DecidableEq

/-- `core/jmeter.py` `JMeterManager.cancel_task`.  Result: the response (or
`HTTPException`), the task table after the call, and the list of Celery task
ids revoked.  A task whose status is not Pending or Running is rejected with
a 400 before anything is revoked or written. -/
def JMeterManager.cancel_task (tasks : List TaskRow) (task_id : String) :
    Except HTTPException CancelResp × List TaskRow × List String :=
  match find_task tasks task_id with
  | none => (.error ⟨404, "Task not found"⟩, tasks, [])
  | some t =>
    if t.status != .pending && t.status != .running then
      (.error ⟨400, "Task cannot be cancelled"⟩, tasks, [])
    else
      let revoked := match t.process_id with
        | some cid => [cid]
        | none => []
      (.ok { task_id := task_id, status := "cancelled",
             message := "Task cancelled successfully" },
       update_task tasks task_id (fun u => { u with status := .cancelled }),
       revoked)

/-- Looking up a task after committing an id-preserving update yields the
updated row. -/
theorem find_task_update (tasks : List TaskRow) (tid : String)
    (f : TaskRow → TaskRow) (hf : ∀ t, (f t).id = t.id) :
    find_task (update_task tasks tid f) tid =
      Option.map f (find_task tasks tid) := by
  induction tasks with
  | nil => rfl
  | cons a as ih =>
      unfold find_task at ih ⊢
      show List.find? (fun t => t.id == tid)
          ((if a.id == tid then f a else a) :: update_task as tid f)
        = Option.map f (List.find? (fun t => t.id == tid) (a :: as))
      cases hab : (a.id == tid) with
      | true =>
          have hfa : ((f a).id == tid) = true := by rw [hf a]; exact hab
          simp [List.find?_cons, hab, hfa]
      | false =>
          simp only [List.find?_cons, hab, if_false, Bool.false_eq_true, if_neg,
            not_false_iff]
          simpa using ih

/-- A lookup for key `k` fails on a list from which every pair with key `k`
has been filtered out. -/
theorem find?_filter_ne_none (l : List (String × Int)) (k : String) :
    (l.filter (fun kv => kv.1 != k)).find? (fun kv => kv.1 == k) = none := by
  induction l with
  | nil => rfl
  | cons kv kvs ih =>
      cases hb : (kv.1 == k) with
      | true =>
          have hne : (kv.1 != k) = false := by simp [bne, hb]
          simp [List.filter_cons, hne]
      | false =>
          have hne : (kv.1 != k) = true := by simp [bne, hb]
          simp [List.filter_cons, hne, List.find?_cons, hb]

/-- After `DictCache.remove c k`, looking up `k` yields `none`. -/
theorem DictCache.get_remove_self (c : DictCache) (k : String) :
    ((c.remove k).1).get k = none := by
  unfold DictCache.remove
  by_cases h : (c.cache.find? (fun kv => kv.1 == k)).isSome = true
  · rw [if_pos h]
    show (DictCache.mk (c.cache.filter (fun kv => kv.1 != k))).get k = none
    unfold DictCache.get
    rw [find?_filter_ne_none]
    rfl
  · rw [if_neg h]
    unfold DictCache.get
    rw [Option.not_isSome_iff_eq_none] at h
    rw [h]
    rfl

/-- Branch lemma for `stop_task_by_file_name`: key absent from the cache. -/
theorem stop_branch_get_none (killpgOk : Int → Bool) (c : DictCache)
    (k : String) (h : c.get k = none) :
    TaskManger.stop_task_by_file_name killpgOk c k =
      ({ pid := 0, returncode := 1, stdout := "",
         stderr := "no found file_name=" ++ k ++ " in cache" }, c, []) := by
  unfold TaskManger.stop_task_by_file_name
  rw [h]
  rfl

/-- Branch lemma for `stop_task_by_file_name`: entry present but falsy
(pid 0). -/
theorem stop_branch_get_zero (killpgOk : Int → Bool) (c : DictCache)
    (k : String) (h : c.get k = some 0) :
    TaskManger.stop_task_by_file_name killpgOk c k =
      ({ pid := 0, returncode := 1, stdout := "",
         stderr := "no found file_name=" ++ k ++ " in cache" }, c, []) := by
  unfold TaskManger.stop_task_by_file_name
  rw [h]
  rfl

/-- Branch lemma for `stop_task_by_file_name`: truthy pid and successful
kill — success response and the entry removed. -/
theorem stop_branch_kill_ok (killpgOk : Int → Bool) (c : DictCache)
    (k : String) (p : Int) (hget : c.get k = some p) (hp : p ≠ 0)
    (hkill : killpgOk p = true) :
    TaskManger.stop_task_by_file_name killpgOk c k =
      ({ pid := p, returncode := 0, stdout := "success", stderr := "" },
       (c.remove k).1, [p]) := by
  unfold TaskManger.stop_task_by_file_name
  rw [hget]
  have ht : pyTruthy (some p) = true := by simp [pyTruthy, hp]
  simp [ht, hkill]

/-- Branch lemma for `stop_task_by_file_name`: truthy pid and a kill that
raises — failure response and the cache unchanged. -/
theorem stop_branch_kill_fail (killpgOk : Int → Bool) (c : DictCache)
    (k : String) (p : Int) (hget : c.get k = some p) (hp : p ≠ 0)
    (hkill : killpgOk p = false) :
    TaskManger.stop_task_by_file_name killpgOk c k =
      ({ pid := p, returncode := 1, stdout := "",
         stderr := "stop pid=" ++ toString p ++ " fail" }, c, [p]) := by
  unfold TaskManger.stop_task_by_file_name
  rw [hget]
  have ht : pyTruthy (some p) = true := by simp [pyTruthy, hp]
  simp [ht, hkill]

/-- C10: `stop_task_by_file_name` is total (its `except` block turns any kill
failure into a returned response, so it never raises to its caller), and the
not-found outcome — pid 0, returncode 1, stderr noting the key was not found
in the cache — is produced for every falsy cached value: in particular, for
an existing entry whose stored pid is 0 the not-found response is returned,
no signal is attempted, and the entry is left in the cache. -/
theorem c10_zero_pid_entry_reported_not_found (killpgOk : Int → Bool)
    (c : DictCache) (k : String) (h : c.get k = some 0) :
    TaskManger.stop_task_by_file_name killpgOk c k =
      ({ pid := 0, returncode := 1, stdout := "",
         stderr := "no found file_name=" ++ k ++ " in cache" }, c, []) :=
  stop_branch_get_zero killpgOk c k h

/-- Witness for c10: a concrete cache holding pid 0 under key "f". -/
theorem c10_zero_pid_entry_reported_not_found_witness :
    TaskManger.stop_task_by_file_name (fun _ => true) ⟨[("f", 0)]⟩ "f" =
      ({ pid := 0, returncode := 1, stdout := "",
         stderr := "no found file_name=" ++ "f" ++ " in cache" },
       ⟨[("f", 0)]⟩, []) :=
  c10_zero_pid_entry_reported_not_found (fun _ => true) ⟨[("f", 0)]⟩ "f" (by decide)

/-- C7 counterexample: cache entry ("f", 5) and a kill that raises.  The
claim says the cache entry is removed nevertheless; in fact the failure
response is returned and the entry is still present, because `cache.remove`
runs after the kill inside the `try` and is skipped when the kill raises. -/
theorem c7_counterexample :
    ((TaskManger.stop_task_by_file_name (fun _ => false) ⟨[("f", 5)]⟩ "f").1.returncode = 1)
    ∧ ((TaskManger.stop_task_by_file_name (fun _ => false) ⟨[("f", 5)]⟩ "f").2.1.get "f"
        = some 5) := by
  constructor
  · rfl
  · rfl

/-- C7 (amended): when the cached pid is truthy and delivering SIGTERM to its
process group raises, `stop_task_by_file_name` returns a failure outcome
(returncode 1 with a diagnostic), and the cache entry for the key is left in
place — the entry is removed only after a successful signal delivery. -/
theorem c7_failed_kill_returns_failure_and_keeps_entry (killpgOk : Int → Bool)
    (c : DictCache) (k : String) (p : Int)
    (hget : c.get k = some p) (hp : p ≠ 0) (hkill : killpgOk p = false) :
    TaskManger.stop_task_by_file_name killpgOk c k =
      ({ pid := p, returncode := 1, stdout := "",
         stderr := "stop pid=" ++ toString p ++ " fail" }, c, [p]) :=
  stop_branch_kill_fail killpgOk c k p hget hp hkill

/-- Witness for c7: the concrete cache ("g", 7) with an always-raising kill. -/
theorem c7_failed_kill_returns_failure_and_keeps_entry_witness :
    TaskManger.stop_task_by_file_name (fun _ => false) ⟨[("g", 7)]⟩ "g" =
      ({ pid := 7, returncode := 1, stdout := "",
         stderr := "stop pid=" ++ toString (7 : Int) ++ " fail" },
       ⟨[("g", 7)]⟩, [7]) :=
  c7_failed_kill_returns_failure_and_keeps_entry (fun _ => false) ⟨[("g", 7)]⟩ "g" 7
    (by decide) (by decide) rfl

/-- C6 counterexample: cache entry ("f", 5) and a kill that always raises.
The first `stop_task_by_file_name` call returns a failure outcome and leaves
the entry in the cache, so the second call does not return the not-found
outcome (its pid is 5, not 0), contrary to the claim that the second call
returns not-found regardless of the first call's outcome. -/
theorem c6_counterexample :
    ¬ ((TaskManger.stop_task_by_file_name (fun _ => false)
          ((TaskManger.stop_task_by_file_name (fun _ => false) ⟨[("f", 5)]⟩ "f").2.1)
          "f").1.pid = 0) := by
  decide

/-- C6 (amended): calling `stop_task_by_file_name` twice in succession never
raises (both calls are total), and whenever the first call returned success
(returncode 0) or the not-found outcome (pid 0), the second call returns the
not-found outcome.  (After a failed signal delivery the entry remains and the
second call instead retries the stop.) -/
theorem c6_second_stop_not_found (killpgOk : Int → Bool) (c : DictCache)
    (k : String)
    (h : (TaskManger.stop_task_by_file_name killpgOk c k).1.returncode = 0
       ∨ (TaskManger.stop_task_by_file_name killpgOk c k).1.pid = 0) :
    (TaskManger.stop_task_by_file_name killpgOk
        ((TaskManger.stop_task_by_file_name killpgOk c k).2.1) k).1 =
      { pid := 0, returncode := 1, stdout := "",
        stderr := "no found file_name=" ++ k ++ " in cache" } := by
  cases hget : c.get k with
  | none =>
      rw [stop_branch_get_none killpgOk c k hget]
      rw [stop_branch_get_none killpgOk c k hget]
  | some p =>
      by_cases hp : p = 0
      · subst hp
        rw [stop_branch_get_zero killpgOk c k hget]
        rw [stop_branch_get_zero killpgOk c k hget]
      · cases hkill : killpgOk p with
        | true =>
            rw [stop_branch_kill_ok killpgOk c k p hget hp hkill]
            have h2 : ((c.remove k).1).get k = none := DictCache.get_remove_self c k
            rw [stop_branch_get_none killpgOk ((c.remove k).1) k h2]
        | false =>
            rw [stop_branch_kill_fail killpgOk c k p hget hp hkill] at h
            rcases h with h | h
            · simp at h
            · exact absurd h hp

/-- Witness for c6: concrete entry ("f", 5), kill succeeding; the first call
returns success, the second the not-found outcome. -/
theorem c6_second_stop_not_found_witness :
    (TaskManger.stop_task_by_file_name (fun _ => true)
        ((TaskManger.stop_task_by_file_name (fun _ => true) ⟨[("f", 5)]⟩ "f").2.1)
        "f").1 =
      { pid := 0, returncode := 1, stdout := "",
        stderr := "no found file_name=" ++ "f" ++ " in cache" } :=
  c6_second_stop_not_found (fun _ => true) ⟨[("f", 5)]⟩ "f" (Or.inl (by decide))

/-- C8 counterexample: `get_all_tasks` returns `self._cache` itself, so at
the concrete cache holding ("a", 1), a `set` of ("b", 2) performed after
getAll has returned changes the contents observed through the returned dict
object: they no longer equal the point-in-time snapshot the claim
promises. -/
theorem c8_counterexample :
    DictCache.view_returned_dict
        (DictCache.set (DictCache.get_all_tasks ⟨[("a", 1)]⟩) "b" 2)
      ≠ DictCache.getAll_snapshot_spec ⟨[("a", 1)]⟩ := by
  decide

/-- The fold inside `stop_all` appends exactly one outcome per visited key. -/
theorem stop_all_fold_length (killpgOk : Int → Bool) (keys : List String)
    (acc : List RunCmdResp × DictCache) :
    ((keys.foldl (fun acc key =>
        let r := TaskManger.stop_task_by_file_name killpgOk acc.2 key
        (acc.1 ++ [r.1], r.2.1)) acc).1).length = acc.1.length + keys.length := by
  induction keys generalizing acc with
  | nil => simp
  | cons k ks ih =>
      rw [List.foldl_cons, ih]
      simp only [List.length_append, List.length_cons, List.length_nil]
      omega

/-- C8 (amended): `get_all_tasks` returns the live dict rather than a copy,
so a set or remove performed after it returns is visible through the
returned mapping (the claimed frozen snapshot fails, see the
counterexample); what does hold is that the stop-all driver copies the key
list at call time, so its per-key stops operate on a key snapshot fixed when
`stop_all` starts, producing exactly one outcome per key of that snapshot
even though the stops themselves mutate the cache during the iteration. -/
theorem c8_stop_all_one_outcome_per_snapshot_key (killpgOk : Int → Bool)
    (c : DictCache) :
    ((TaskManger.stop_all killpgOk c).1).length
      = (DictCache.get_all_tasks c).cache.length := by
  show (((TaskManger.list_tasks c).cache.map (fun kv => kv.1)).foldl
      (fun acc key =>
        let r := TaskManger.stop_task_by_file_name killpgOk acc.2 key
        (acc.1 ++ [r.1], r.2.1)) ([], c)).1.length
    = (DictCache.get_all_tasks c).cache.length
  rw [stop_all_fold_length]
  simp [TaskManger.list_tasks, DictCache.get_all_tasks]

/-- Normal-path characterisation of the execution worker: task found, jmx on
disk, Popen succeeded, no timeout.  The task table after the run is the
sequence of commits the source performs: Running + Celery id, then the jtl
name, then captured streams and exit code, then the final status decided by
the exit code. -/
theorem worker_tasks_normal (env : WorkerEnv) (tasks : List TaskRow)
    (tid cid ts path : String) (t : TaskRow)
    (hfind : find_task tasks tid = some t)
    (hex : env.jmx_exists = true) (hpo : env.popen_ok = true)
    (hto : env.proc.timed_out = false) :
    (execute_jmeter_task env tasks tid cid ts path).2.1 =
      update_task (update_task (update_task (update_task tasks tid
          (fun u => { u with status := .running, process_id := some cid })) tid
          (fun u => { u with
            jtl_file_name := some (pathStem path ++ "_" ++ ts ++ ".jtl") })) tid
          (fun u => { u with stdout := some env.proc.stdout,
                             stderr := some env.proc.stderr,
                             return_code := some env.proc.returncode })) tid
        (fun u => { u with
          status := if env.proc.returncode == 0 then TaskStatus.completed
                    else TaskStatus.failed }) := by
  unfold execute_jmeter_task
  rw [hfind]
  by_cases hrc : (env.proc.returncode == 0) = true
  · simp [hex, hpo, hto, hrc]
  · simp [hex, hpo, hto, hrc]

/-- Timeout-path characterisation of the execution worker: task found, jmx on
disk, Popen succeeded, `communicate` raised `TimeoutExpired`.  The handler
records Failed with the timeout message; the kill flag of the result is
`false`: no path of the worker signals the external process. -/
theorem worker_tasks_timeout (env : WorkerEnv) (tasks : List TaskRow)
    (tid cid ts path : String) (t : TaskRow)
    (hfind : find_task tasks tid = some t)
    (hex : env.jmx_exists = true) (hpo : env.popen_ok = true)
    (hto : env.proc.timed_out = true) :
    (execute_jmeter_task env tasks tid cid ts path).1 =
        .ok { status := "failed", message := "JMeter execution timed out",
              error := some "Execution timeout" }
    ∧ (execute_jmeter_task env tasks tid cid ts path).2.2 = false
    ∧ (execute_jmeter_task env tasks tid cid ts path).2.1 =
        update_task (update_task (update_task tasks tid
            (fun u => { u with status := .running, process_id := some cid })) tid
            (fun u => { u with
              jtl_file_name := some (pathStem path ++ "_" ++ ts ++ ".jtl") })) tid
          (fun u => { u with status := .failed,
                             stderr := some "Execution timeout" }) := by
  refine ⟨?_, ?_, ?_⟩ <;>
    (unfold execute_jmeter_task; rw [hfind]; simp [hex, hpo, hto])

/-- Concrete pending task fixture. -/
def tPending : TaskRow :=
  { id := "t1", name := "Execute a.jmx", jmx_file_name := "a.jmx",
    jmx_file_path := "/jmx/a.jmx", jmx_file_hash := "h",
    status := .pending, process_id := none, jtl_file_name := none,
    command := none, stdout := none, stderr := none, return_code := none }

/-- Concrete task fixture already in the terminal state Cancelled. -/
def tCancelled : TaskRow :=
  { tPending with id := "t2", status := .cancelled }

/-- Concrete task fixture already in the terminal state Completed. -/
def tCompleted : TaskRow :=
  { tPending with id := "t3", status := .completed }

/-- Worker environment fixture: everything succeeds, exit code 0. -/
def envOk : WorkerEnv :=
  { jmx_exists := true, popen_ok := true, popen_err := "",
    proc := { timed_out := false, returncode := 0, stdout := "ok", stderr := "" } }

/-- Worker environment fixture: process runs and exits with code 1. -/
def envExitOne : WorkerEnv :=
  { jmx_exists := true, popen_ok := true, popen_err := "",
    proc := { timed_out := false, returncode := 1, stdout := "", stderr := "boom" } }

/-- Worker environment fixture: `communicate` raises `TimeoutExpired`. -/
def envTimeout : WorkerEnv :=
  { jmx_exists := true, popen_ok := true, popen_err := "",
    proc := { timed_out := true, returncode := 0, stdout := "", stderr := "" } }

/-- C3: when the execution worker runs the external process to completion
(task found, jmx present, Popen succeeded, no timeout), the task's final
status is Completed if and only if the exit code is 0, and on a non-zero
exit code the final status is Failed with the captured stderr recorded on
the task. -/
theorem c3_completed_iff_exit_zero (env : WorkerEnv) (tasks : List TaskRow)
    (tid cid ts path : String) (t : TaskRow)
    (hfind : find_task tasks tid = some t)
    (hex : env.jmx_exists = true) (hpo : env.popen_ok = true)
    (hto : env.proc.timed_out = false) :
    (Option.map TaskRow.status
        (find_task ((execute_jmeter_task env tasks tid cid ts path).2.1) tid)
      = some TaskStatus.completed ↔ env.proc.returncode = 0)
    ∧ (env.proc.returncode ≠ 0 →
        Option.map TaskRow.status
            (find_task ((execute_jmeter_task env tasks tid cid ts path).2.1) tid)
          = some TaskStatus.failed
        ∧ Option.map TaskRow.stderr
            (find_task ((execute_jmeter_task env tasks tid cid ts path).2.1) tid)
          = some (some env.proc.stderr)) := by
  rw [worker_tasks_normal env tasks tid cid ts path t hfind hex hpo hto]
  rw [find_task_update, find_task_update, find_task_update, find_task_update, hfind]
  · constructor
    · by_cases hrc : env.proc.returncode = 0
      · simp [hrc]
      · have hb : (env.proc.returncode == 0) = false := by simpa using hrc
        simp [hb, hrc]
    · intro hne
      have hb : (env.proc.returncode == 0) = false := by simpa using hne
      simp [hb]
  · intro u; rfl
  · intro u; rfl
  · intro u; rfl
  · intro u; rfl

/-- Witness for c3: pending task, process exits with code 1 and stderr
"boom"; the final status is Failed and the stderr is recorded. -/
theorem c3_completed_iff_exit_zero_witness :
    (Option.map TaskRow.status
        (find_task ((execute_jmeter_task envExitOne [tPending] "t1" "cid" "ts" "/jmx/a.jmx").2.1) "t1")
      = some TaskStatus.completed ↔ (1 : Int) = 0)
    ∧ ((1 : Int) ≠ 0 →
        Option.map TaskRow.status
            (find_task ((execute_jmeter_task envExitOne [tPending] "t1" "cid" "ts" "/jmx/a.jmx").2.1) "t1")
          = some TaskStatus.failed
        ∧ Option.map TaskRow.stderr
            (find_task ((execute_jmeter_task envExitOne [tPending] "t1" "cid" "ts" "/jmx/a.jmx").2.1) "t1")
          = some (some "boom")) :=
  c3_completed_iff_exit_zero envExitOne [tPending] "t1" "cid" "ts" "/jmx/a.jmx"
    tPending (by decide) rfl rfl rfl

/-- C4 counterexample: on a timeout the worker records Failed with the
"Execution timeout" message, but its kill flag is `false`: the
`TimeoutExpired` handler contains no kill/terminate/killpg call, so the
external process group is NOT forcibly terminated, contrary to the claim. -/
theorem c4_counterexample :
    (execute_jmeter_task envTimeout [tPending] "t1" "cid" "ts" "/jmx/a.jmx").2.2 = false
    ∧ Option.map TaskRow.status
        (find_task ((execute_jmeter_task envTimeout [tPending] "t1" "cid" "ts" "/jmx/a.jmx").2.1) "t1")
      = some TaskStatus.failed
    ∧ Option.map TaskRow.stderr
        (find_task ((execute_jmeter_task envTimeout [tPending] "t1" "cid" "ts" "/jmx/a.jmx").2.1) "t1")
      = some (some "Execution timeout") := by
  refine ⟨rfl, ?_, ?_⟩ <;> decide

/-- C4 (amended): when the execution exceeds the configured timeout, the
task's status becomes Failed with "Execution timeout" recorded on it and the
worker reports "JMeter execution timed out"; however no termination signal
is sent to the external process group — the worker's kill flag is false. -/
theorem c4_timeout_fails_task_without_kill (env : WorkerEnv)
    (tasks : List TaskRow) (tid cid ts path : String) (t : TaskRow)
    (hfind : find_task tasks tid = some t)
    (hex : env.jmx_exists = true) (hpo : env.popen_ok = true)
    (hto : env.proc.timed_out = true) :
    (execute_jmeter_task env tasks tid cid ts path).1 =
        .ok { status := "failed", message := "JMeter execution timed out",
              error := some "Execution timeout" }
    ∧ (execute_jmeter_task env tasks tid cid ts path).2.2 = false
    ∧ Option.map TaskRow.status
        (find_task ((execute_jmeter_task env tasks tid cid ts path).2.1) tid)
      = some TaskStatus.failed
    ∧ Option.map TaskRow.stderr
        (find_task ((execute_jmeter_task env tasks tid cid ts path).2.1) tid)
      = some (some "Execution timeout") := by
  have hw := worker_tasks_timeout env tasks tid cid ts path t hfind hex hpo hto
  refine ⟨hw.1, hw.2.1, ?_, ?_⟩ <;>
    (rw [hw.2.2]
     rw [find_task_update, find_task_update, find_task_update, hfind]
     · rfl
     · intro u; rfl
     · intro u; rfl
     · intro u; rfl)

/-- Witness for c4: the concrete timeout run on the pending task. -/
theorem c4_timeout_fails_task_without_kill_witness :
    (execute_jmeter_task envTimeout [tPending] "t1" "cid" "ts" "/jmx/a.jmx").1 =
        .ok { status := "failed", message := "JMeter execution timed out",
              error := some "Execution timeout" }
    ∧ (execute_jmeter_task envTimeout [tPending] "t1" "cid" "ts" "/jmx/a.jmx").2.2 = false
    ∧ Option.map TaskRow.status
        (find_task ((execute_jmeter_task envTimeout [tPending] "t1" "cid" "ts" "/jmx/a.jmx").2.1) "t1")
      = some TaskStatus.failed
    ∧ Option.map TaskRow.stderr
        (find_task ((execute_jmeter_task envTimeout [tPending] "t1" "cid" "ts" "/jmx/a.jmx").2.1) "t1")
      = some (some "Execution timeout") :=
  c4_timeout_fails_task_without_kill envTimeout [tPending] "t1" "cid" "ts"
    "/jmx/a.jmx" tPending (by decide) rfl rfl rfl

/-- C2 counterexample: a task already in the terminal state Cancelled is not
left unchanged by a run of the execution worker: `execute_jmeter_task` never
checks the current status, so the run moves the task to Running and then
(here, exit code 0) to Completed. -/
theorem c2_counterexample :
    tCancelled.status = TaskStatus.cancelled
    ∧ Option.map TaskRow.status
        (find_task ((execute_jmeter_task envOk [tCancelled] "t2" "cid" "ts" "/jmx/a.jmx").2.1) "t2")
      = some TaskStatus.completed := by
  exact ⟨rfl, by decide⟩

/-- C2 (amended): terminal statuses (Completed, Failed, Cancelled) are
absorbing under `cancel_task` — which rejects them with a 400 error, revokes
nothing and leaves the task table unchanged — and under report generation,
which never touches the task table; a re-run of the execution worker for the
same task id, however, does change a terminal status (see the
counterexample). -/
theorem c2_terminal_absorbing_for_cancel_and_report (tasks : List TaskRow)
    (tid : String) (t : TaskRow) (renv : ReportEnv) (tid2 jtl : String)
    (hfind : find_task tasks tid = some t)
    (hterm : t.status = TaskStatus.completed ∨ t.status = TaskStatus.failed
      ∨ t.status = TaskStatus.cancelled) :
    JMeterManager.cancel_task tasks tid =
        (.error ⟨400, "Task cannot be cancelled"⟩, tasks, [])
    ∧ (generate_html_report_task renv tasks tid2 jtl).2 = tasks := by
  constructor
  · unfold JMeterManager.cancel_task
    rw [hfind]
    have hcond : (t.status != TaskStatus.pending
        && t.status != TaskStatus.running) = true := by
      rcases hterm with h | h | h <;> rw [h] <;> rfl
    simp only [hcond, if_true]
  · unfold generate_html_report_task
    repeat' split
    all_goals rfl

/-- Witness for c2: a Completed task is rejected by cancel_task with a 400
and untouched by a failing report generation. -/
theorem c2_terminal_absorbing_for_cancel_and_report_witness :
    JMeterManager.cancel_task [tCompleted] "t3" =
        (.error ⟨400, "Task cannot be cancelled"⟩, [tCompleted], [])
    ∧ (generate_html_report_task
        { jtl_exists := false, popen_ok := true, popen_err := "",
          timed_out := false, returncode := 0, stderr := "" }
        [tCompleted] "t3" "missing.jtl").2 = [tCompleted] :=
  c2_terminal_absorbing_for_cancel_and_report [tCompleted] "t3" tCompleted
    { jtl_exists := false, popen_ok := true, popen_err := "",
      timed_out := false, returncode := 0, stderr := "" }
    "t3" "missing.jtl" (by decide) (Or.inl rfl)

/-- C9: `generate_html_report_task` leaves the task table unchanged on every
path — missing JTL file, renderer launch failure, renderer timeout, non-zero
renderer exit, and success alike — so a failed report generation does not
modify the associated task record and a task that reached Completed keeps
status Completed. -/
theorem c9_report_generation_never_touches_tasks (renv : ReportEnv)
    (tasks : List TaskRow) (tid jtl : String) (t : TaskRow)
    (hfind : find_task tasks tid = some t) :
    (generate_html_report_task renv tasks tid jtl).2 = tasks
    ∧ find_task ((generate_html_report_task renv tasks tid jtl).2) tid = some t := by
  have hframe : (generate_html_report_task renv tasks tid jtl).2 = tasks := by
    unfold generate_html_report_task
    repeat' split
    all_goals rfl
  refine ⟨hframe, ?_⟩
  rw [hframe]
  exact hfind

/-- Witness for c9: a Completed task and a report run whose renderer exits
non-zero; the task table, and the Completed task in it, are unchanged. -/
theorem c9_report_generation_never_touches_tasks_witness :
    (generate_html_report_task
        { jtl_exists := true, popen_ok := true, popen_err := "",
          timed_out := false, returncode := 1, stderr := "render error" }
        [tCompleted] "t3" "a.jtl").2 = [tCompleted]
    ∧ find_task ((generate_html_report_task
        { jtl_exists := true, popen_ok := true, popen_err := "",
          timed_out := false, returncode := 1, stderr := "render error" }
        [tCompleted] "t3" "a.jtl").2) "t3" = some tCompleted :=
  c9_report_generation_never_touches_tasks
    { jtl_exists := true, popen_ok := true, popen_err := "",
      timed_out := false, returncode := 1, stderr := "render error" }
    [tCompleted] "t3" "a.jtl" tCompleted (by decide)

/-- Concrete stored, non-deleted JMX file record whose file is present on
disk in `stTest`. -/
def frTest : FileRecord :=
  { stored_name := "test.jmx", file_path := "/jmx/test.jmx",
    file_type := .jmx, is_deleted := false, original_name := "test.jmx",
    file_hash := "h" }

/-- Concrete application state for the execute claims: one valid record on
disk, empty task table, empty cache, nothing enqueued. -/
def stTest : AppState :=
  { file_records := [frTest], tasks := [], disk := ["/jmx/test.jmx"],
    cache := ⟨[]⟩, enqueued := [] }

/-- The clause the query was evidently meant to contain (selecting
non-deleted records, `.is_(False)` in SQLAlchemy), for contrast with
`is_deleted_is_False_clause`. -/
def intended_not_deleted_clause (r : FileRecord) : Bool :=
  r.is_deleted == false

/-- C5: evaluation at the failing input.  The state holds a stored JMX
record that satisfies the intended non-deleted filter (first conjunct) and
whose file is present on disk (second conjunct); the claim requires the call
to create a Pending task and not fail with NotFound; but because the query's
clause `FileRecord.is_deleted is False` evaluates to the Python constant
`False`, the query matches no record, the call raises 404 "JMX file not
found", and the state — task table included — is unchanged. -/
theorem c5_valid_file_still_not_found_eval :
    (stTest.file_records.find? (fun r =>
        r.stored_name == "test.jmx" && r.file_type == FileType.jmx
          && intended_not_deleted_clause r) = some frTest)
    ∧ stTest.disk.contains frTest.file_path = true
    ∧ (JMeterManager.execute_jmx_async stTest "test.jmx" "tid-1" "cel-1").1
        = .error ⟨404, "JMX file not found"⟩
    ∧ (JMeterManager.execute_jmx_async stTest "test.jmx" "tid-1" "cel-1").2 = stTest := by
  refine ⟨?_, ?_, ?_, ?_⟩ <;> rfl

/-- C1: no pid is ever registered in the TaskCache by the execute path.
(i) `TaskManger.execute_jmx` itself raises `AttributeError`, because
`JMeterManager` defines no `execute_jmx` attribute; (ii) `execute_jmx_async`
returns with the `TaskManger` cache exactly as it was — no branch of the
function references the cache, for any input state; (iii) consequently a
stop request issued immediately after the execute call at the concrete state
`stTest` gets the not-found outcome (pid 0) instead of finding a cache
entry, contrary to the claim. -/
theorem c1_no_pid_registered_before_return :
    TaskManger.execute_jmx "test.jmx" = .error PyError.attributeError
    ∧ (∀ (st : AppState) (f a b : String),
        (JMeterManager.execute_jmx_async st f a b).2.cache = st.cache)
    ∧ (TaskManger.stop_task_by_file_name (fun _ => true)
        ((JMeterManager.execute_jmx_async stTest "test.jmx" "tid-1" "cel-1").2.cache)
        "test_ts.jtl").1.pid = 0 := by
  refine ⟨rfl, ?_, rfl⟩
  intro st f a b
  rcases hq : query_first_jmx st.file_records f with _ | fr
  · simp [JMeterManager.execute_jmx_async, hq]
  · simp only [JMeterManager.execute_jmx_async, hq]
    split
    · rfl
    · rfl
